import Mathlib

/-!
Shallow embedding of the Modmail cog (src/cogs/modmail.py) and of the configuration
manager (src/core/config.py), together with theorems checking the specification's
claims about them.

Modelling conventions:
* Python dicts become association lists with unique keys (`dictGet`, `dictSet`, `dictDel`).
* Timestamps (`datetime` values) become integers; `(a - b).total_seconds()` becomes `a - b`.
* Strings are modelled by Lean `String`s, with code-point level helpers mirroring the
  Python string methods used by the source (`strLower`, `strStarts`, `strStrip`, ...).
  The repository only manipulates ASCII command text, so ASCII lowering suffices.
* Commands are embedded as pure functions from the state they read to the state they
  write plus the observable actions (embeds sent, thread calls, persistence updates).
-/

namespace Modmail

/-- Embeds Python dict lookup `d.get(k)` / `d[k]` on an association list
(first binding wins; Python dict keys are unique). -/
def dictGet {α : Type} (d : List (String × α)) (k : String) : Option α :=
  match d with
  | [] => none
  | (k1, v) :: rest => if k1 = k then some v else dictGet rest k

/-- Embeds Python `d[k] = v`: replace the binding in place when present, else append. -/
def dictSet {α : Type} (d : List (String × α)) (k : String) (v : α) : List (String × α) :=
  match d with
  | [] => [(k, v)]
  | (k1, v1) :: rest => if k1 = k then (k1, v) :: rest else (k1, v1) :: dictSet rest k v

/-- Embeds Python `del d[k]`: the key's binding is removed (keys are unique, so
removing every binding of `k` is the faithful translation). -/
def dictDel {α : Type} (d : List (String × α)) (k : String) : List (String × α) :=
  d.filter (fun kv => kv.1 != k)

/-- Lowers one code point, as Python `str.lower` does on ASCII text. -/
def charLower (c : Char) : Char :=
  if 65 ≤ c.toNat ∧ c.toNat ≤ 90 then Char.ofNat (c.toNat + 32) else c

/-- Embeds Python `str.lower()` (ASCII; all command text in the repository is ASCII). -/
def strLower (s : String) : String :=
  String.mk (s.data.map charLower)

/-- Embeds Python `s.startswith(p)`. -/
def strStarts (s p : String) : Bool :=
  p.data.isPrefixOf s.data

/-- Embeds Python `str.strip()`: whitespace removed from both ends. -/
def strStrip (s : String) : String :=
  String.mk (((s.data.dropWhile Char.isWhitespace).reverse.dropWhile
    Char.isWhitespace).reverse)

/-- Embeds Python `s.rstrip('.')`: trailing full stops removed. -/
def rstripDots (s : String) : String :=
  String.mk ((s.data.reverse.dropWhile (fun c => c == '.')).reverse)

/-- Embeds Python `s[n:]` (code-point slice). -/
def strDropN (s : String) (n : Nat) : String :=
  String.mk (s.data.drop n)

/-- Embeds Python `str(x)` on an optional string (`str(None)` is `"None"`). -/
def pyStrOpt : Option String → String
  | none => "None"
  | some s => s

/-! ### The close command (src/cogs/modmail.py lines 164-241) -/

/-- Embeds the `after: UserFriendlyTime` argument of the close command: an absolute
time `dt` and the remaining free-text argument `arg` (the empty string when no
message text was given). -/
structure After where
  dt : Int
  arg : String
  deriving DecidableEq

/-- Observable actions of the close command, in execution order.
`scheduledCloseNotice dt w f` is the "Scheduled close" embed: its description renders
the human-readable delay for `dt` and carries the "*silently*" wording iff `w`;
`f` is the optional custom-message field. `threadClose a m s` is the call
`thread.close(closer=..., after=a, message=m, silent=s)`, and `cancelClosure` is
`thread.cancel_closure()`. -/
inductive CloseEvent where
  | scheduledCloseNotice (dt : Int) (silentWording : Bool) (messageField : Option String)
  | cancelClosure
  | cancelNotice
  | notScheduledNotice
  | threadClose (closeAfter : Int) (message : Option String) (silent : Bool)
  deriving DecidableEq

/-- Embeds `Modmail.send_scheduled_close_message` (lines 164-183): the embed is always
built and sent; its description carries the "*silently*" wording iff `silent`, and the
custom-message field is added iff `after.arg` is nonempty and the reassigned string
`silent` is falsy (i.e. the boolean `silent` is false). -/
def send_scheduled_close_message (after : After) (silent : Bool) : CloseEvent :=
  .scheduledCloseNotice after.dt silent
    (if after.arg ≠ "" ∧ silent = false then some after.arg else none)

/-- Embeds `Modmail.close` (lines 185-241). `close_task` is whether
`thread.close_task is not None`; `now` is `datetime.utcnow()`; `after` is the parsed
command argument (`None` when absent). Returns the observable actions in order. -/
def close (close_task : Bool) (now : Int) (after : Option After) : List CloseEvent :=
  let message : Option String := after.map (fun a => a.arg)
  let msgLower := strLower (pyStrOpt message)
  let silent := msgLower == "silent" || msgLower == "silently"
  let cancel := msgLower == "cancel"
  let close_after : Int := match after with
    | some a => a.dt - now
    | none => 0
  if cancel then
    if close_task then [.cancelClosure, .cancelNotice] else [.notScheduledNotice]
  else
    (match after with
      | some a => if a.dt > now then [send_scheduled_close_message a silent] else []
      | none => []) ++ [.threadClose close_after message silent]

/-- Recognizes the "Scheduled close" notice among close events. -/
def isScheduledNotice : CloseEvent → Bool
  | .scheduledCloseNotice _ _ _ => true
  | _ => false

/-- C1, counterexample: invoking close with a positive delay (`dt = 10 > now = 0`) and the
message "silently" sets the silent flag (visible as `silent = true` on the `threadClose`
event), yet the scheduled-close notice IS still emitted — with the "*silently*" wording
and no custom-message field. This refutes "when silent is set, no scheduled-close notice
is sent to the channel". -/
theorem C1_counterexample :
    close false 0 (some ⟨10, "silently"⟩) =
      [CloseEvent.scheduledCloseNotice 10 true none,
       CloseEvent.threadClose 10 (some "silently") true] := by
  decide

/-- C1, amended: for every invocation of the close command with a delay greater than zero
(and a message other than "cancel"), the scheduled-close notice is always emitted,
whether or not the silent flag is set; its "*silently*" wording tracks the silent flag and
it carries the custom message exactly when a message was given and silent is not set. -/
theorem C1_scheduled_close_notice (close_task : Bool) (now : Int) (a : After)
    (hdt : a.dt > now) (hcancel : strLower a.arg ≠ "cancel") :
    close close_task now (some a) =
      [CloseEvent.scheduledCloseNotice a.dt
        (strLower a.arg == "silent" || strLower a.arg == "silently")
        (if a.arg ≠ "" ∧ (strLower a.arg == "silent" || strLower a.arg == "silently") = false
          then some a.arg else none),
       CloseEvent.threadClose (a.dt - now) (some a.arg)
        (strLower a.arg == "silent" || strLower a.arg == "silently")] := by
  have hc : (strLower a.arg == "cancel") = false := by
    simpa using hcancel
  simp [close, pyStrOpt, hc, hdt, send_scheduled_close_message]

/-- C1, witness: the amended theorem evaluated at the counterexample's input. -/
theorem C1_scheduled_close_notice_witness :
    close false 0 (some ⟨10, "silently"⟩) =
      [CloseEvent.scheduledCloseNotice 10 true none,
       CloseEvent.threadClose 10 (some "silently") true] :=
  C1_scheduled_close_notice false 0 ⟨10, "silently"⟩ (by decide) (by decide)

/-- C8: whenever the thread has no pending scheduled close (`close_task is None`) the
`close cancel` invocation only sends the "has not already been scheduled to close" error
embed: no `cancel_closure`, no `thread.close`, and no state mutation happen. -/
theorem C8_close_cancel_not_scheduled (now : Int) (a : After)
    (h : strLower a.arg = "cancel") :
    close false now (some a) = [CloseEvent.notScheduledNotice] := by
  have hc : (strLower a.arg == "cancel") = true := by
    simpa using h
  simp [close, pyStrOpt, hc]

/-- C8, witness: `close cancel` on a thread with no pending close, concretely. -/
theorem C8_close_cancel_not_scheduled_witness :
    strLower "cancel" = "cancel" ∧
    close false 5 (some ⟨5, "cancel"⟩) = [CloseEvent.notScheduledNotice] :=
  ⟨by decide, C8_close_cancel_not_scheduled 5 ⟨5, "cancel"⟩ (by decide)⟩

/-! ### Dictionary lemmas -/

/-- Setting a key makes it readable. -/
theorem dictGet_dictSet_self {α : Type} (d : List (String × α)) (k : String) (v : α) :
    dictGet (dictSet d k v) k = some v := by
  induction d with
  | nil => simp [dictSet, dictGet]
  | cons kv rest ih =>
    obtain ⟨k1, v1⟩ := kv
    by_cases h : k1 = k
    · simp [dictSet, dictGet, h]
    · simp [dictSet, dictGet, h, ih]

/-- Setting one key leaves the other keys' bindings unchanged. -/
theorem dictGet_dictSet_ne {α : Type} (d : List (String × α)) (k t : String) (v : α)
    (h : k ≠ t) : dictGet (dictSet d k v) t = dictGet d t := by
  induction d with
  | nil => simp [dictSet, dictGet, h]
  | cons kv rest ih =>
    obtain ⟨k1, v1⟩ := kv
    by_cases h1 : k1 = k
    · subst h1
      simp [dictSet, dictGet, h]
    · simp [dictSet, dictGet, h1, ih]

/-- Deleting a key removes its binding. -/
theorem dictGet_dictDel_self {α : Type} (d : List (String × α)) (k : String) :
    dictGet (dictDel d k) k = none := by
  induction d with
  | nil => rfl
  | cons kv rest ih =>
    obtain ⟨k1, v1⟩ := kv
    by_cases h : k1 = k
    · subst h
      simpa [dictDel, List.filter_cons] using ih
    · have hb : (k1 != k) = true := by simpa using h
      have ih' : dictGet (List.filter (fun kv => kv.1 != k) rest) k = none := by
        simpa [dictDel] using ih
      simp [dictDel, List.filter_cons, hb, dictGet, h, ih']

/-- Every element of `dictSet d k v` is an element of `d` or carries key `k`. -/
theorem mem_dictSet {α : Type} (d : List (String × α)) (k : String) (v : α) :
    ∀ kv ∈ dictSet d k v, kv ∈ d ∨ kv.1 = k := by
  induction d with
  | nil => simp [dictSet]
  | cons kv0 rest ih =>
    obtain ⟨k1, v1⟩ := kv0
    by_cases h : k1 = k
    · subst h
      intro kv hkv
      simp [dictSet] at hkv
      rcases hkv with h1 | h1
      · subst h1; right; rfl
      · left; simp [h1]
    · intro kv hkv
      simp [dictSet, h] at hkv
      rcases hkv with h1 | h1
      · subst h1; left; simp
      · rcases ih kv h1 with h2 | h2
        · left; simp [h2]
        · right; exact h2

/-- A successful lookup comes from a binding in the list. -/
theorem dictGet_mem {α : Type} (d : List (String × α)) (k : String) (v : α)
    (h : dictGet d k = some v) : (k, v) ∈ d := by
  induction d with
  | nil => simp [dictGet] at h
  | cons kv rest ih =>
    obtain ⟨k1, v1⟩ := kv
    by_cases h1 : k1 = k
    · subst h1
      simp [dictGet] at h
      subst h
      simp
    · simp [dictGet, h1] at h
      simp [ih h]

/-! ### The notification and subscription registries (src/cogs/modmail.py lines 243-351) -/

/-- Result of a registry-mutating command: the registry after the call, whether the
red error embed was sent, and whether `config.update` was called. -/
structure RegResult where
  reg : List (String × List String)
  err : Bool
  updated : Bool
  deriving DecidableEq

/-- Embeds `Modmail.notify` (lines 243-278), after the mention target has been resolved
to the string `mention` and with `tid` the thread id rendered as a string. An empty
mention list is first inserted for a thread id that has no entry; appending to the
stored Python list mutates the stored entry in place. -/
def notify (squad : List (String × List String)) (tid mention : String) : RegResult :=
  let squad1 := if (dictGet squad tid).isSome then squad else dictSet squad tid []
  let mentions := (dictGet squad1 tid).getD []
  if mentions.contains mention then
    ⟨squad1, true, false⟩
  else
    ⟨dictSet squad1 tid (mentions ++ [mention]), false, true⟩

/-- Embeds `Modmail.unsubscribe` (lines 320-351), after mention-target resolution.
Python `list.remove` removes the first occurrence, i.e. `List.erase`. -/
def unsubscribe (subs : List (String × List String)) (tid mention : String) : RegResult :=
  let subs1 := if (dictGet subs tid).isSome then subs else dictSet subs tid []
  let mentions := (dictGet subs1 tid).getD []
  if mentions.contains mention = false then
    ⟨subs1, true, false⟩
  else
    ⟨dictSet subs1 tid (mentions.erase mention), false, true⟩

/-- Outcome of the unblock command. `successInternal r` is the extended success message
shown when the removed reason was internally generated (it reports the original internal
reason `r`). -/
inductive UnblockOutcome where
  | successInternal (origReason : String)
  | success
  | notBlockedErr
  deriving DecidableEq

/-- Result of the unblock command: blocked mapping after the call, outcome embed,
and whether `config.update` was called. -/
structure UnblockRes where
  blocked : List (String × Option String)
  outcome : UnblockOutcome
  updated : Bool
  deriving DecidableEq

/-- Embeds `Modmail.unblock` (lines 750-801), with the user already resolved to the id
string `uid`. `bot.blocked_users` is the `blocked` mapping of the config (the accessor
itself lives outside src/); a stored reason may be `None`, hence `Option String` values.
The entry is deleted whenever it exists; the internal marker only selects the extended
success message, whose reason text is `msg[16:].strip().rstrip('.') or 'no reason'`. -/
def unblock (blocked : List (String × Option String)) (uid : String) : UnblockRes :=
  if (dictGet blocked uid).isSome then
    let msg := ((dictGet blocked uid).getD none).getD ""
    let blocked1 := dictDel blocked uid
    if strStarts msg "System Message: " then
      ⟨blocked1,
       .successInternal
         (let r := rstripDots (strStrip (strDropN msg 16))
          if r = "" then "no reason" else r),
       true⟩
    else ⟨blocked1, .success, true⟩
  else ⟨blocked, .notBlockedErr, false⟩

/-- C2, counterexample: calling unsubscribe for a thread that has no entry in the
subscriptions registry with a target that is (necessarily) not subscribed reports the
error, yet mutates the registry: an empty mention list is inserted for the thread id,
so the registry is no longer exactly as it was before the call. -/
theorem C2_counterexample :
    (unsubscribe [] "1" "m").err = true ∧ (unsubscribe [] "1" "m").reg ≠ [] := by
  decide

/-- C2, amended: each conflict outcome reports the error, performs no persistence
update, and leaves every registered mention set and every block entry unchanged;
notify-on-duplicate and unblock-when-not-blocked leave the registries exactly as they
were, and so does unsubscribe-when-not-subscribed whenever the thread id already has an
entry — but unsubscribe on a thread id with no entry inserts an empty mention list for
that id (the mention sets themselves still unchanged). -/
theorem C2_conflicts_report_without_update (squad subs : List (String × List String))
    (blocked : List (String × Option String)) (tid mention uid : String) :
    (mention ∈ (dictGet squad tid).getD [] → notify squad tid mention = ⟨squad, true, false⟩) ∧
    (mention ∉ (dictGet subs tid).getD [] →
      (unsubscribe subs tid mention).err = true ∧
      (unsubscribe subs tid mention).updated = false ∧
      (∀ t, (dictGet (unsubscribe subs tid mention).reg t).getD [] = (dictGet subs t).getD []) ∧
      ((dictGet subs tid).isSome = true → unsubscribe subs tid mention = ⟨subs, true, false⟩)) ∧
    (dictGet blocked uid = none → unblock blocked uid = ⟨blocked, .notBlockedErr, false⟩) := by
  refine ⟨?_, ?_, ?_⟩
  · intro h
    cases hq : dictGet squad tid with
    | none => simp [hq] at h
    | some l =>
      have h' : mention ∈ l := by simpa [hq] using h
      simp [notify, hq, h']
  · intro h
    cases hq : dictGet subs tid with
    | none =>
      have hself : dictGet (dictSet subs tid []) tid = some [] :=
        dictGet_dictSet_self subs tid []
      refine ⟨?_, ?_, ?_, ?_⟩
      · simp [unsubscribe, hq, hself]
      · simp [unsubscribe, hq, hself]
      · intro t
        by_cases ht : t = tid
        · subst ht
          simp [unsubscribe, hq, hself]
        · have : dictGet (dictSet subs tid []) t = dictGet subs t :=
            dictGet_dictSet_ne subs tid t [] (fun hx => ht hx.symm)
          simp [unsubscribe, hq, hself, this]
      · intro hc
        simp [hq] at hc
    | some l =>
      have h' : mention ∉ l := by simpa [hq] using h
      refine ⟨?_, ?_, ?_, ?_⟩
      · simp [unsubscribe, hq, h']
      · simp [unsubscribe, hq, h']
      · intro t
        simp [unsubscribe, hq, h']
      · intro _
        simp [unsubscribe, hq, h']
  · intro h
    simp [unblock, h]

/-- C2, witness: the amended theorem at concrete conflicting inputs — a duplicate
notify registration, an unsubscribe of a target not in the thread's existing entry,
and an unblock of a user who is not blocked. -/
theorem C2_conflicts_report_without_update_witness :
    notify [("1", ["m"])] "1" "m" = ⟨[("1", ["m"])], true, false⟩ ∧
    (unsubscribe [("1", ["x"])] "1" "m").err = true ∧
    unblock [] "9" = ⟨[], .notBlockedErr, false⟩ :=
  ⟨(C2_conflicts_report_without_update [("1", ["m"])] [("1", ["x"])] [] "1" "m" "9").1
     (by decide),
   ((C2_conflicts_report_without_update [("1", ["m"])] [("1", ["x"])] [] "1" "m" "9").2.1
     (by decide)).1,
   (C2_conflicts_report_without_update [("1", ["m"])] [("1", ["x"])] [] "1" "m" "9").2.2
     (by decide)⟩

/-! ### The block command (src/cogs/modmail.py lines 682-748) -/

/-- Embeds the `after: UserFriendlyTime` argument of the block command: the parsed
absolute time `dt`, the parse-time reference `now` (`after.now`), and the remaining
free-text reason `arg`. -/
structure BlockAfter where
  dt : Int
  now : Int
  arg : String
  deriving DecidableEq

/-- Scans for an opening percent sign before any newline, at distance at least one
from the closing percent sign (helper for the placeholder test). -/
def scanForOpen : List Char → Bool
  | [] => false
  | c :: rest => if c == '%' then true else if c == '\n' then false else scanForOpen rest

/-- Embeds the Python test `re.search(r'%(.+?)%' + '$', reason) is not None`: the reason
ends (dollar also matches just before one trailing newline) with a percent sign preceded
by at least one non-newline character and an earlier percent sign, with no newline in
between (dot matches every character except newline, including a percent sign). -/
def placeholderAtEnd (s : String) : Bool :=
  let r := s.data.reverse
  let r1 := match r with
    | '\n' :: rest => rest
    | l => l
  match r1 with
  | '%' :: c0 :: rest => if c0 == '\n' then false else scanForOpen rest
  | _ => false

/-- Renders a timestamp, embedding `after.dt.isoformat()`: timestamps are modelled as
integers and this is their decimal rendering — like the real ISO-8601 string it is
injective and free of percent signs and newlines. -/
def isoformat (t : Int) : String := toString t

/-- Outcome embed (or raised exception) of the block command. -/
inductive BlockOutcome where
  | badArgSystemMarker
  | missingArgPlaceholder
  | successNew
  | successRepeat (oldReason : String)
  | alreadyBlockedErr
  deriving DecidableEq

/-- Result of the block command: blocked mapping after the call, outcome, and whether
`config.update` was called. -/
structure BlockRes where
  blocked : List (String × Option String)
  outcome : BlockOutcome
  updated : Bool
  deriving DecidableEq

/-- Embeds lines 713-748 of `Modmail.block`: the storing step after the reason has been
computed. `extend` is truthy iff the reason is not `None`; `msg` is the currently stored
reason (`''` when absent or `None`). A new entry is stored when the user is not yet
blocked, or a reason was supplied, or the existing reason carries the internal marker;
otherwise the "already blocked" error is reported and nothing changes. -/
def blockStore (blocked : List (String × Option String)) (uid : String)
    (reason : Option String) : BlockRes :=
  let extend := reason.isSome
  let msg := ((dictGet blocked uid).getD none).getD ""
  if !(dictGet blocked uid).isSome || extend || strStarts msg "System Message: " then
    if (dictGet blocked uid).isSome then
      ⟨dictSet blocked uid reason,
       .successRepeat
         (let r := rstripDots (strStrip msg)
          if r = "" then "no reason" else r),
       true⟩
    else ⟨dictSet blocked uid reason, .successNew, true⟩
  else ⟨blocked, .alreadyBlockedErr, false⟩

/-- Embeds `Modmail.block` (lines 682-748), with the user resolved to the id string
`uid` and `after` the parsed time-and-reason argument (`None` when absent). A reason
starting with the internal marker raises `BadArgument`; a reason ending with a
placeholder raises `MissingRequiredArgument`; the expiry marker is appended only when
`after.dt > after.now`; an empty reason becomes `None`. -/
def block (blocked : List (String × Option String)) (uid : String)
    (after : Option BlockAfter) : BlockRes :=
  match after with
  | none => blockStore blocked uid none
  | some a =>
    if strStarts a.arg "System Message: " then ⟨blocked, .badArgSystemMarker, false⟩
    else if placeholderAtEnd a.arg then ⟨blocked, .missingArgPlaceholder, false⟩
    else
      let reason0 := if a.dt > a.now then a.arg ++ " %" ++ isoformat a.dt ++ "%" else a.arg
      blockStore blocked uid (if reason0 = "" then none else some reason0)

/-- Parses digits (helper for the expiry-marker parser). -/
def parseNatAux : List Char → Nat → Option Nat
  | [], acc => some acc
  | c :: rest, acc =>
    if 48 ≤ c.toNat ∧ c.toNat ≤ 57 then parseNatAux rest (acc * 10 + (c.toNat - 48))
    else none

/-- Parses an optionally negated run of digits as an integer (helper for the
expiry-marker parser; timestamps are modelled as integers). -/
def parseIntStr : List Char → Option Int
  | [] => none
  | '-' :: rest =>
    match rest with
    | [] => none
    | _ => (parseNatAux rest 0).map (fun n => -(n : Int))
  | l => (parseNatAux l 0).map (fun n => (n : Int))

/-- Modelled from the spec: extraction of the trailing expiry marker from a stored block
reason, for the Block Registry's `isBlocked` accessor (spec section 4.3 — the accessor
itself lives outside src/). Returns the embedded timestamp when the reason ends with a
well-formed marker, i.e. a percent-delimited timestamp suffix. -/
def parseExpiryMarker (s : String) : Option Int :=
  match s.data.reverse with
  | '%' :: rest =>
    let tsRev := rest.takeWhile (fun c => c != '%')
    match rest.drop tsRev.length with
    | '%' :: _ => parseIntStr tsRev.reverse
    | _ => none
  | _ => none

/-- Modelled from the spec: `isBlocked(userId, now)` of the Block Registry (spec section
4.3, outside src/): parses a trailing expiry marker out of the stored reason; if one is
present and `now` is past it, the entry is logically absent (not blocked); otherwise the
user is blocked. -/
def isBlocked (blocked : List (String × Option String)) (uid : String) (now : Int) : Bool :=
  match dictGet blocked uid with
  | none => false
  | some reasonOpt =>
    match parseExpiryMarker (reasonOpt.getD "") with
    | some expiry => decide (now < expiry)
    | none => true

/-- C3, counterexample: blocking user "1" with reason "spam" and an expiry one second in
the past (`dt = 9 < now = 10`) stores the plain reason with NO expiry marker (the marker
is only appended for future expiries), and the user is reported as still blocked on a
much later check. This refutes both halves of the claim: the stored entry does not carry
a past expiry marker, and the user is not reported as unblocked. -/
theorem C3_counterexample :
    block [] "1" (some ⟨9, 10, "spam"⟩) = ⟨[("1", some "spam")], .successNew, true⟩ ∧
    parseExpiryMarker "spam" = none ∧
    isBlocked [("1", some "spam")] "1" 1000000 = true := by
  decide

/-- C3, amended: for every user blocked with an expiry timestamp in the past (not in the
future), the expiry marker is not appended: the stored entry is exactly the plain reason
with no expiry marker, and the user is reported as blocked — permanently, at every later
check. -/
theorem C3_past_expiry_blocks_permanently (blocked : List (String × Option String))
    (uid : String) (a : BlockAfter) (t : Int)
    (hdt : a.dt ≤ a.now)
    (hsm : strStarts a.arg "System Message: " = false)
    (hph : placeholderAtEnd a.arg = false)
    (hne : a.arg ≠ "")
    (hpm : parseExpiryMarker a.arg = none) :
    (block blocked uid (some a)).blocked = dictSet blocked uid (some a.arg) ∧
    isBlocked (dictSet blocked uid (some a.arg)) uid t = true := by
  constructor
  · have h1 : ¬ a.dt > a.now := by omega
    by_cases hp : (dictGet blocked uid).isSome
    · simp [block, hsm, hph, h1, hne, blockStore, hp]
    · simp [block, hsm, hph, h1, hne, blockStore, hp]
  · simp [isBlocked, dictGet_dictSet_self, hpm]

/-- C3, witness: the amended theorem at the counterexample's concrete input. -/
theorem C3_past_expiry_blocks_permanently_witness :
    (block [] "1" (some ⟨9, 10, "spam"⟩)).blocked = dictSet [] "1" (some "spam") ∧
    isBlocked (dictSet [] "1" (some "spam")) "1" 5 = true :=
  C3_past_expiry_blocks_permanently [] "1" ⟨9, 10, "spam"⟩ 5 (by decide) (by decide)
    (by decide) (by decide) (by decide)

/-- C5, counterexample: user "1" is blocked with the internally generated reason
"System Message: New account."; an ordinary unblock call removes the entry entirely
(the blocked mapping becomes empty), merely reporting the internal reason in its
extended success message. This refutes "leaves that internally generated entry in
place (does not remove or overwrite it)". -/
theorem C5_counterexample :
    unblock [("1", some "System Message: New account.")] "1" =
      ⟨[], .successInternal "New account", true⟩ := by
  decide

/-- C5, amended: for every block entry whose stored reason begins with the internal
marker "System Message: ", an ordinary unblock call removes the entry (its key is gone
from the blocked mapping) and only distinguishes it by reporting the original internal
reason, and an ordinary reblock call with a fresh valid reason overwrites the entry
with the new reason. -/
theorem C5_internal_entries_removed_and_overwritten
    (blocked : List (String × Option String)) (uid : String) (msg : Option String)
    (a : BlockAfter)
    (hget : dictGet blocked uid = some msg)
    (hsys : strStarts (msg.getD "") "System Message: " = true)
    (hsm : strStarts a.arg "System Message: " = false)
    (hph : placeholderAtEnd a.arg = false)
    (hdt : a.dt ≤ a.now) (hne : a.arg ≠ "") :
    dictGet (unblock blocked uid).blocked uid = none ∧
    (∃ r, (unblock blocked uid).outcome = .successInternal r) ∧
    (block blocked uid (some a)).blocked = dictSet blocked uid (some a.arg) := by
  refine ⟨?_, ?_, ?_⟩
  · simp [unblock, hget, hsys, dictGet_dictDel_self]
  · simp [unblock, hget, hsys]
  · have h1 : ¬ a.dt > a.now := by omega
    simp [block, hsm, hph, h1, hne, blockStore, hget]

/-- C5, witness: the amended theorem at a concrete internally blocked user. -/
theorem C5_internal_entries_removed_and_overwritten_witness :
    dictGet (unblock [("1", some "System Message: Too new.")] "1").blocked "1" = none ∧
    (∃ r, (unblock [("1", some "System Message: Too new.")] "1").outcome =
      .successInternal r) ∧
    (block [("1", some "System Message: Too new.")] "1" (some ⟨0, 0, "spam"⟩)).blocked =
      dictSet [("1", some "System Message: Too new.")] "1" (some "spam") :=
  C5_internal_entries_removed_and_overwritten
    [("1", some "System Message: Too new.")] "1" (some "System Message: Too new.")
    ⟨0, 0, "spam"⟩ (by decide) (by decide) (by decide) (by decide) (by decide) (by decide)

/-- C7: every block call whose reason starts with the reserved marker
"System Message: " (in particular a reason exactly equal to that marker) is rejected
with `BadArgument`, and every one whose reason ends with the placeholder pattern is
rejected with `MissingRequiredArgument`; in both cases the blocked mapping is unchanged
and no persistence update happens, so no block entry is stored. -/
theorem C7_block_reason_rejections (blocked : List (String × Option String))
    (uid : String) (a : BlockAfter) :
    (strStarts a.arg "System Message: " = true →
      block blocked uid (some a) = ⟨blocked, .badArgSystemMarker, false⟩) ∧
    (strStarts a.arg "System Message: " = false → placeholderAtEnd a.arg = true →
      block blocked uid (some a) = ⟨blocked, .missingArgPlaceholder, false⟩) := by
  constructor
  · intro h
    simp [block, h]
  · intro h1 h2
    simp [block, h1, h2]

/-- C7, witness: a reason exactly equal to the reserved marker, and a reason ending
with a placeholder, at concrete inputs. -/
theorem C7_block_reason_rejections_witness :
    block [] "1" (some ⟨0, 0, "System Message: "⟩) = ⟨[], .badArgSystemMarker, false⟩ ∧
    block [] "1" (some ⟨0, 0, "do not spam %please%"⟩) =
      ⟨[], .missingArgPlaceholder, false⟩ :=
  ⟨(C7_block_reason_rejections [] "1" ⟨0, 0, "System Message: "⟩).1 (by decide),
   (C7_block_reason_rejections [] "1" ⟨0, 0, "do not spam %please%"⟩).2 (by decide)
     (by decide)⟩

/-! ### Color cleaning (src/core/config.py lines 134-159) -/

/-- Embeds the literal digit set of `ConfigManager.clean_data` (lines 151-152): the ten
digits and only the lowercase hex letters a-f. -/
def hexLetters : List Char :=
  "0123456789abcdef".data

/-- Result of `clean_data` on a color key: the canonical stored value and display text,
or `InvalidConfigError`. -/
inductive CleanResult where
  | ok (cleanValue : String) (valueText : String)
  | invalidConfigErr
  deriving DecidableEq

/-- Embeds the color branch of `ConfigManager.clean_data` (lines 139-158). `allColors`
is the `ALL_COLORS` named-color mapping (from `core/_color_data.py`, outside src/):
a `for` loop raising at the first letter outside the lowercase hex-digit set is the
same as requiring every letter to be in that set. -/
def cleanColor (allColors : List (String × String)) (val : String) : CleanResult :=
  match dictGet allColors val with
  | some hex => .ok hex (val ++ " (" ++ hex ++ ")")
  | none =>
    let v := if strStarts val "#" then strDropN val 1 else val
    if v.length ≠ 6 then .invalidConfigErr
    else if v.data.all (fun c => hexLetters.contains c) then .ok ("#" ++ v) ("#" ++ v)
    else .invalidConfigErr

/-- Modelled from the spec: a sample of the `ALL_COLORS` named-color mapping
(`core/_color_data.py` is not in src/) — keys are color names such as "red", none of
them hex-digit strings or strings starting with a hash sign. -/
def allColorsSample : List (String × String) :=
  [("red", "#FF0000"), ("black", "#000000"), ("white", "#FFFFFF")]

/-- C4, counterexample: `"ff0000"` cleans to the canonical `"#ff0000"`, but `"#FF0000"`
fails with `InvalidConfigError` — the letter check only admits lowercase hex digits, so
cleaning is NOT case-insensitive and the two inputs do not normalize to the same stored
value. -/
theorem C4_counterexample :
    cleanColor allColorsSample "ff0000" = .ok "#ff0000" "#ff0000" ∧
    cleanColor allColorsSample "#FF0000" = .invalidConfigErr := by
  decide

/-- C4, amended: over every named-color mapping not containing the three literals as
names, color cleaning accepts a lowercase 6-hex-digit string with an optional leading
hash — `"ff0000"` normalizes to the canonical `"#ff0000"` — while the uppercase
`"#FF0000"` and the non-hex `"zzzzzz"` both fail with `InvalidConfigError`: the
hex path is case-sensitive (lowercase only), not case-insensitive. -/
theorem C4_color_cleaning_case_sensitive (allColors : List (String × String))
    (h1 : dictGet allColors "ff0000" = none)
    (h2 : dictGet allColors "#FF0000" = none)
    (h3 : dictGet allColors "zzzzzz" = none) :
    cleanColor allColors "ff0000" = .ok "#ff0000" "#ff0000" ∧
    cleanColor allColors "#FF0000" = .invalidConfigErr ∧
    cleanColor allColors "zzzzzz" = .invalidConfigErr := by
  refine ⟨?_, ?_, ?_⟩
  · simp [cleanColor, h1]
    decide
  · simp [cleanColor, h2]
    decide
  · simp [cleanColor, h3]
    decide

/-- C4, witness: the amended theorem over the sample named-color mapping. -/
theorem C4_color_cleaning_case_sensitive_witness :
    cleanColor allColorsSample "ff0000" = .ok "#ff0000" "#ff0000" ∧
    cleanColor allColorsSample "#FF0000" = .invalidConfigErr ∧
    cleanColor allColorsSample "zzzzzz" = .invalidConfigErr :=
  C4_color_cleaning_case_sensitive allColorsSample (by decide) (by decide) (by decide)

/-! ### Linked-message resolution (src/cogs/modmail.py lines 556-607 and 803-829) -/

/-- Embeds the fields of a channel-history message the scan reads: the first embed's
color value (`embed.color.value`, already resolved against `bot.mod_color`) and the
embed author's url (`None` models a missing/empty url attribute). -/
structure MsgEmbed where
  colorVal : Int
  authorUrl : Option String
  deriving DecidableEq

/-- Embeds a message of `ctx.channel.history()`; the history list is newest first. -/
structure ChanMessage where
  id : Int
  embeds : List MsgEmbed
  deriving DecidableEq

/-- Embeds Python truthiness of `embed.author.url` (falsy when absent or empty). -/
def truthyUrl : Option String → Bool
  | none => false
  | some s => s != ""

/-- Splits a character list at a separator (helper for `str.split('/')`). -/
def splitChar (c : Char) : List Char → List Char → List (List Char)
  | [], acc => [acc.reverse]
  | x :: xs, acc =>
    if x == c then acc.reverse :: splitChar c xs [] else splitChar c xs (x :: acc)

/-- Embeds `str(url).split('/')[-1]`. -/
def lastUrlSegment (u : Option String) : String :=
  String.mk ((splitChar '/' (pyStrOpt u).data []).getLastD [])

/-- Embeds `Modmail.find_linked_message` (lines 556-576). Without an explicit id the
scan skips messages with no embeds, or whose first embed misses the mod color or a
truthy author url, and returns the first match's url tail; with an explicit (truthy,
i.e. nonzero) id it returns the url tail of the message with exactly that id.
`.error ()` models the uncaught `IndexError` of `msg.embeds[0]` when the message
matched by explicit id has no embeds. -/
def find_linked_message (mod_color : Int) (message_id : Option Int) :
    List ChanMessage → Except Unit (Option String)
  | [] => .ok none
  | msg :: rest =>
    match message_id with
    | none =>
      match msg.embeds with
      | [] => find_linked_message mod_color none rest
      | e :: _ =>
        if (e.colorVal != mod_color) || !truthyUrl e.authorUrl then
          find_linked_message mod_color none rest
        else .ok (some (lastUrlSegment e.authorUrl))
    | some mid =>
      if (mid != 0) && (msg.id == mid) then
        match msg.embeds with
        | [] => .error ()
        | e :: _ => .ok (some (lastUrlSegment e.authorUrl))
      else find_linked_message mod_color (some mid) rest

/-- Decidable equality for `Except` results (used to evaluate concrete scans). -/
instance instDecEqExceptRes {ε α : Type} [DecidableEq ε] [DecidableEq α] :
    DecidableEq (Except ε α) := fun a b =>
  match a, b with
  | .ok x, .ok y =>
    if h : x = y then .isTrue (by rw [h]) else .isFalse (by intro hc; cases hc; exact h rfl)
  | .error x, .error y =>
    if h : x = y then .isTrue (by rw [h]) else .isFalse (by intro hc; cases hc; exact h rfl)
  | .ok _, .error _ => .isFalse (by intro hc; cases hc)
  | .error _, .ok _ => .isFalse (by intro hc; cases hc)

/-- Outcome of the edit command. `delegated` is the pair of calls
`thread.edit_message` / `api.edit_message` on the resolved linked id. -/
inductive EditOutcome where
  | failedNotice
  | delegated (linkedId : String) (newMessage : String)
  | indexError
  deriving DecidableEq

/-- Embeds `Modmail.edit` (lines 578-607): resolve the linked message, send the
"Cannot find a message to edit." failure embed when resolution returns `None`
(without delegating to the transport), else delegate the edit. -/
def edit (mod_color : Int) (history : List ChanMessage) (message_id : Option Int)
    (new_message : String) : EditOutcome :=
  match find_linked_message mod_color message_id history with
  | .error _ => .indexError
  | .ok none => .failedNotice
  | .ok (some lid) => .delegated lid new_message

/-- Follows the spec's words (section 4.5): a message is a recognizable staff-authored
rendering when its first embed carries the mod color and an embedded origin tag
(a truthy author url). -/
def staffMarked (mod_color : Int) (msg : ChanMessage) : Bool :=
  match msg.embeds with
  | [] => false
  | e :: _ => (e.colorVal == mod_color) && truthyUrl e.authorUrl

/-- Follows the spec's words (section 4.5): without an explicit id, scan the history
newest-to-oldest and return the first staff-marked rendering's embedded origin id;
first match wins. -/
def findLinkedSpec (mod_color : Int) (history : List ChanMessage) : Option String :=
  (history.find? (staffMarked mod_color)).bind fun m =>
    m.embeds.head?.map fun e => lastUrlSegment e.authorUrl

/-- A zero explicit id is falsy in Python, so the scan matches nothing. -/
theorem find_linked_message_zero (mod_color : Int) (history : List ChanMessage) :
    find_linked_message mod_color (some 0) history = .ok none := by
  induction history with
  | nil => rfl
  | cons msg rest ih => simpa [find_linked_message] using ih

/-- C6: resolving without an explicit id equals the spec's newest-to-oldest first-match
scan for a staff-marked rendering; any result of resolving with an explicit id comes
from the first message with exactly that id (its first embed's url tail); and whenever
resolution finds nothing, the edit command sends the failure embed and never delegates
to the transport. -/
theorem C6_find_linked_message (mod_color : Int) (history : List ChanMessage)
    (mid : Int) (midOpt : Option Int) (new_message : String) :
    (find_linked_message mod_color none history = .ok (findLinkedSpec mod_color history)) ∧
    (∀ x, find_linked_message mod_color (some mid) history = .ok (some x) →
      ∃ m, history.find? (fun msg => msg.id == mid) = some m ∧
        ∃ e es, m.embeds = e :: es ∧ x = lastUrlSegment e.authorUrl) ∧
    (find_linked_message mod_color midOpt history = .ok none →
      edit mod_color history midOpt new_message = .failedNotice) := by
  refine ⟨?_, ?_, ?_⟩
  · induction history with
    | nil => rfl
    | cons msg rest ih =>
      match hemb : msg.embeds with
      | [] =>
        have hsm : staffMarked mod_color msg = false := by simp [staffMarked, hemb]
        simpa [find_linked_message, hemb, findLinkedSpec, List.find?_cons, hsm]
          using ih
      | e :: es =>
        by_cases hm : staffMarked mod_color msg = true
        · have hcond : ((e.colorVal != mod_color) || !truthyUrl e.authorUrl) = false := by
            simp [staffMarked, hemb] at hm
            simp [hm]
          simp [find_linked_message, hemb, hcond, findLinkedSpec, List.find?_cons, hm]
        · have hm' : staffMarked mod_color msg = false := by simpa using hm
          have hcond : ((e.colorVal != mod_color) || !truthyUrl e.authorUrl) = true := by
            simp [staffMarked, hemb] at hm'
            by_cases hc : e.colorVal = mod_color
            · simp [hc, hm' hc]
            · simp [hc]
          simpa [find_linked_message, hemb, hcond, findLinkedSpec, List.find?_cons, hm']
            using ih
  · induction history with
    | nil => intro x hx; simp [find_linked_message] at hx
    | cons msg rest ih =>
      intro x hx
      by_cases hg : ((mid != 0) && (msg.id == mid)) = true
      · have hid : (msg.id == mid) = true := by
          simp at hg
          simp [hg]
        match hemb : msg.embeds with
        | [] => simp [find_linked_message, hg, hemb] at hx
        | e :: es =>
          simp [find_linked_message, hg, hemb] at hx
          exact ⟨msg, by simp [List.find?_cons, hid], e, es, hemb, hx.symm⟩
      · have hrec : find_linked_message mod_color (some mid) rest = .ok (some x) := by
          simpa [find_linked_message, hg] using hx
        by_cases hz : mid = 0
        · subst hz
          rw [find_linked_message_zero] at hrec
          simp at hrec
        · have hid : (msg.id == mid) = false := by
            simp at hg
            simp [hg hz]
          have := ih x hrec
          simpa [List.find?_cons, hid] using this
  · intro h
    simp [edit, h]

/-- C6, witness: a concrete history (newest first) containing one embed-less message and
one staff rendering linking to origin id "99"; an explicit lookup for id 7 and a failing
lookup for the absent id 404. -/
theorem C6_find_linked_message_witness :
    (find_linked_message 3 none [⟨5, []⟩, ⟨7, [⟨3, some "api/logs/99"⟩]⟩] =
      .ok (findLinkedSpec 3 [⟨5, []⟩, ⟨7, [⟨3, some "api/logs/99"⟩]⟩])) ∧
    (∃ m, [(⟨5, []⟩ : ChanMessage), ⟨7, [⟨3, some "api/logs/99"⟩]⟩].find?
        (fun msg => msg.id == 7) = some m ∧
      ∃ e es, m.embeds = e :: es ∧ "99" = lastUrlSegment e.authorUrl) ∧
    edit 3 [⟨5, []⟩, ⟨7, [⟨3, some "api/logs/99"⟩]⟩] (some 404) "corrected text" =
      .failedNotice :=
  ⟨(C6_find_linked_message 3 [⟨5, []⟩, ⟨7, [⟨3, some "api/logs/99"⟩]⟩] 7 (some 404)
      "corrected text").1,
   (C6_find_linked_message 3 [⟨5, []⟩, ⟨7, [⟨3, some "api/logs/99"⟩]⟩] 7 (some 404)
      "corrected text").2.1 "99" (by decide),
   (C6_find_linked_message 3 [⟨5, []⟩, ⟨7, [⟨3, some "api/logs/99"⟩]⟩] 7 (some 404)
      "corrected text").2.2 (by decide)⟩

/-! ### The delete command (src/cogs/modmail.py lines 803-829) -/

/-- Embeds the Python value bound to the delete command's `message_id = None`
parameter: absent (`None`), or the raw string typed by the invoker. An already-int
value is included for completeness of `int(x)`. -/
inductive PyArg where
  | noneArg
  | intArg (n : Int)
  | strArg (s : String)
  deriving DecidableEq

/-- The exception kinds `int(x)` can raise. -/
inductive IntConvErr where
  | typeError
  | valueError
  deriving DecidableEq

/-- Embeds Python `int(x)`: `int(None)` raises `TypeError`; a non-numeric string raises
`ValueError`; a numeric string or int converts. -/
def pyInt : PyArg → Except IntConvErr Int
  | .noneArg => .error .typeError
  | .intArg n => .ok n
  | .strArg s =>
    match parseIntStr s.data with
    | some n => .ok n
    | none => .error .valueError

/-- Outcome of the delete command. -/
inductive DeleteOutcome where
  | uncaughtTypeError
  | badArgumentRaised
  | failedNotice
  | deleted (linkedId : String)
  | indexError
  deriving DecidableEq

/-- Embeds `Modmail.delete` (lines 803-829): `message_id = int(message_id)` inside a
`try` whose only handler is `except ValueError` — a `TypeError` escapes uncaught; on
success the linked message is resolved with the converted integer id and deleted. -/
def delete (mod_color : Int) (history : List ChanMessage) (arg : PyArg) : DeleteOutcome :=
  match pyInt arg with
  | .error .typeError => .uncaughtTypeError
  | .error .valueError => .badArgumentRaised
  | .ok mid =>
    match find_linked_message mod_color (some mid) history with
    | .error _ => .indexError
    | .ok none => .failedNotice
    | .ok (some lid) => .deleted lid

/-- C9: invoking delete with no message id reaches `int(None)`, whose `TypeError` is not
caught by the `except ValueError` handler, so the command dies before any resolution —
and every successful deletion goes through `find_linked_message` with an explicit
integer id, never through the most-recent-staff-message scan: the documented
"deletes the previous message" path is unreachable. -/
theorem C9_delete_none_uncaught (mod_color : Int) (history : List ChanMessage)
    (arg : PyArg) (lid : String) :
    delete mod_color history PyArg.noneArg = .uncaughtTypeError ∧
    (delete mod_color history arg = .deleted lid →
      ∃ n, pyInt arg = .ok n ∧
        find_linked_message mod_color (some n) history = .ok (some lid)) := by
  refine ⟨rfl, ?_⟩
  intro h
  match harg : pyInt arg with
  | .error .typeError => simp [delete, harg] at h
  | .error .valueError => simp [delete, harg] at h
  | .ok n =>
    refine ⟨n, rfl, ?_⟩
    match hf : find_linked_message mod_color (some n) history with
    | .error _ => simp [delete, harg, hf] at h
    | .ok none => simp [delete, harg, hf] at h
    | .ok (some l) =>
      simp [delete, harg, hf] at h
      simp [h]

/-- C9, witness: delete with no argument dies with the uncaught `TypeError`, and a
concrete successful deletion resolves through the explicit id 7. -/
theorem C9_delete_none_uncaught_witness :
    delete 3 [⟨7, [⟨3, some "api/logs/99"⟩]⟩] PyArg.noneArg = .uncaughtTypeError ∧
    (∃ n, pyInt (PyArg.strArg "7") = .ok n ∧
      find_linked_message 3 (some n) [⟨7, [⟨3, some "api/logs/99"⟩]⟩] = .ok (some "99")) :=
  ⟨(C9_delete_none_uncaught 3 [⟨7, [⟨3, some "api/logs/99"⟩]⟩] (PyArg.strArg "7") "99").1,
   (C9_delete_none_uncaught 3 [⟨7, [⟨3, some "api/logs/99"⟩]⟩] (PyArg.strArg "7") "99").2
     (by decide)⟩

/-! ### Configuration cache population (src/core/config.py lines 17-132) -/

/-- Embeds the shapes of configuration values `populate_cache` handles: the default
empty dicts and lists, and strings (environment variables and json entries). -/
inductive ConfVal where
  | emptyDict
  | emptyList
  | strV (s : String)
  deriving DecidableEq

/-- Embeds `ConfigManager.allowed_to_change_in_command` (lines 17-40). -/
def allowed_to_change_in_command : List String :=
  ["twitch_url",
   "main_category_id", "disable_autoupdates", "prefix", "mention",
   "main_color", "user_typing", "mod_typing", "account_age", "guild_age",
   "reply_without_command",
   "log_channel_id",
   "sent_emoji", "blocked_emoji", "close_emoji", "disable_recipient_thread_close",
   "thread_creation_response", "thread_creation_footer", "thread_creation_title",
   "thread_close_footer", "thread_close_title", "thread_close_response",
   "thread_self_close_response",
   "recipient_color", "mod_tag", "mod_color",
   "anon_username", "anon_avatar_url", "anon_tag"]

/-- Embeds `ConfigManager.internal_keys` (lines 42-54). -/
def internal_keys : List String :=
  ["activity_message", "activity_type", "status", "oauth_whitelist",
   "blocked", "command_permissions", "level_permissions",
   "snippets", "notification_squad", "subscriptions", "closures",
   "aliases", "plugins"]

/-- Embeds `ConfigManager.protected_keys` (lines 56-69). -/
def protected_keys : List String :=
  ["modmail_guild_id", "guild_id",
   "log_url", "mongo_uri", "owners",
   "token",
   "github_access_token",
   "log_level"]

/-- Embeds `ConfigManager.valid_keys` (line 79): the union of the three namespaces
(they are disjoint, so list append has the same membership). -/
def valid_keys : List String :=
  allowed_to_change_in_command ++ internal_keys ++ protected_keys

/-- Embeds the `data` literal of `populate_cache` (lines 107-119). -/
def defaultConfigData : List (String × ConfVal) :=
  [("snippets", .emptyDict),
   ("plugins", .emptyList),
   ("aliases", .emptyDict),
   ("blocked", .emptyDict),
   ("oauth_whitelist", .emptyList),
   ("command_permissions", .emptyDict),
   ("level_permissions", .emptyDict),
   ("notification_squad", .emptyDict),
   ("subscriptions", .emptyDict),
   ("closures", .emptyDict),
   ("log_level", .strV "INFO")]

/-- Embeds Python `d.update(e)`: later entries override earlier bindings in place. -/
def dictUpdate {α : Type} (d e : List (String × α)) : List (String × α) :=
  e.foldl (fun acc kv => dictSet acc kv.1 kv.2) d

/-- Embeds `ConfigManager.populate_cache` (lines 106-132): defaults, overridden by the
environment, overridden by config.json; then the dict comprehension keeps an entry iff
its lowercased key is a valid key, storing it under the lowercased key. -/
def populate_cache (env configJson : List (String × ConfVal)) :
    List (String × ConfVal) :=
  let data := dictUpdate (dictUpdate defaultConfigData env) configJson
  data.foldl
    (fun acc kv =>
      if valid_keys.contains (strLower kv.1) then dictSet acc (strLower kv.1) kv.2
      else acc)
    []

/-- Every key of `valid_keys` is already lowercase. -/
theorem valid_keys_lower : ∀ k ∈ valid_keys, strLower k = k := by decide

/-- Invariant of the comprehension fold: every accumulated entry has a valid key. -/
theorem populate_fold_valid (l : List (String × ConfVal))
    (acc : List (String × ConfVal))
    (hacc : ∀ kv ∈ acc, kv.1 ∈ valid_keys) :
    ∀ kv ∈ l.foldl
      (fun acc kv =>
        if valid_keys.contains (strLower kv.1) then dictSet acc (strLower kv.1) kv.2
        else acc)
      acc, kv.1 ∈ valid_keys := by
  induction l generalizing acc with
  | nil => simpa using hacc
  | cons kv0 rest ih =>
    simp only [List.foldl_cons]
    by_cases hc : valid_keys.contains (strLower kv0.1) = true
    · rw [if_pos hc]
      refine ih (dictSet acc (strLower kv0.1) kv0.2) ?_
      intro kv hkv
      rcases mem_dictSet acc (strLower kv0.1) kv0.2 kv hkv with h | h
      · exact hacc kv h
      · rw [h]
        simpa using hc
    · rw [if_neg (by simpa using hc)]
      exact ih acc hacc

/-- C10: after `populate_cache`, every key present in the cache is lowercase and a
member of `valid_keys` (the union of the user-editable, internal and protected
namespaces), and every environment or config.json entry whose lowercased name falls
outside that set is absent from the cache. -/
theorem C10_populate_cache_keys (env configJson : List (String × ConfVal)) :
    (∀ kv ∈ populate_cache env configJson, kv.1 ∈ valid_keys ∧ strLower kv.1 = kv.1) ∧
    (∀ k : String, strLower k ∉ valid_keys →
      dictGet (populate_cache env configJson) (strLower k) = none) := by
  have hmem : ∀ kv ∈ populate_cache env configJson, kv.1 ∈ valid_keys := by
    intro kv hkv
    exact populate_fold_valid _ [] (by simp) kv hkv
  constructor
  · intro kv hkv
    exact ⟨hmem kv hkv, valid_keys_lower kv.1 (hmem kv hkv)⟩
  · intro k hk
    cases hd : dictGet (populate_cache env configJson) (strLower k) with
    | none => rfl
    | some v =>
      exact absurd (hmem (strLower k, v) (dictGet_mem _ _ _ hd)) hk

/-- C10, witness: a concrete environment with one valid key in uppercase and one junk
key, and a config.json entry with a mixed-case valid key — the valid keys enter the
cache lowercased, the junk key is dropped. -/
theorem C10_populate_cache_keys_witness :
    (("token" ∈ valid_keys ∧ strLower "token" = "token") ∧
      ("prefix" ∈ valid_keys ∧ strLower "prefix" = "prefix")) ∧
    dictGet (populate_cache [("TOKEN", ConfVal.strV "abc"),
        ("RANDOM_JUNK", ConfVal.strV "x")] [("Prefix", ConfVal.strV "!")])
      (strLower "RANDOM_JUNK") = none :=
  ⟨⟨(C10_populate_cache_keys [("TOKEN", ConfVal.strV "abc"),
        ("RANDOM_JUNK", ConfVal.strV "x")] [("Prefix", ConfVal.strV "!")]).1
      ("token", ConfVal.strV "abc") (by decide),
    (C10_populate_cache_keys [("TOKEN", ConfVal.strV "abc"),
        ("RANDOM_JUNK", ConfVal.strV "x")] [("Prefix", ConfVal.strV "!")]).1
      ("prefix", ConfVal.strV "!") (by decide)⟩,
   (C10_populate_cache_keys [("TOKEN", ConfVal.strV "abc"),
        ("RANDOM_JUNK", ConfVal.strV "x")] [("Prefix", ConfVal.strV "!")]).2
      "RANDOM_JUNK" (by decide)⟩

end Modmail
